import Mathlib

/-
Verification development for the Bracken-IP-Cam firmware HTTP handlers
(`Software/CameraWebServerV1.2/CameraWebServerV1.2.ino`, with
`Software/CameraWebServerV1.1/app_httpd.cpp` as the earlier revision).

The camera, JPEG converter and HTTP transport are external collaborators;
their outcomes (frame acquisition results, encode results, chunk-send
results) are inputs to the model.  Resource actions (acquiring/returning a
camera frame buffer, allocating/freeing an encode buffer, sending chunks,
pacing delays) are recorded as an explicit event trace so that
resource-lifetime and counting properties can be stated and proved.
-/

namespace BrackenIPCam

/-- Pixel format tag of a camera frame buffer (`fb->format`).  The handlers
only distinguish `PIXFORMAT_JPEG` from everything else. -/
inductive PixFormat
  | jpeg
  | other
deriving DecidableEq, Repr

/-- A frame handle as produced by `esp_camera_fb_get`: payload length,
format tag and capture timestamp (`fb->timestamp.tv_sec/tv_usec`). -/
structure FrameIn where
  format : PixFormat
  len : Nat
  tsSec : Int
  tsUsec : Int
deriving DecidableEq, Repr

/-- Outcome of a `frame2jpg` call: the returned boolean, whether the output
pointer was set to a freshly allocated heap buffer, and the output length. -/
structure EncodeOut where
  ok : Bool
  bufAllocated : Bool
  bufLen : Nat
deriving DecidableEq, Repr

/-- Environment of one iteration of the `stream_handler` loop: the frame
(if any) returned by `esp_camera_fb_get`, the `frame2jpg` outcome (used only
when the frame is not already JPEG), and the success of each of the three
`httpd_resp_send_chunk` calls (boundary, part header, payload). -/
structure IterIn where
  acquired : Option FrameIn
  encode : EncodeOut
  sendBoundaryOk : Bool
  sendHeaderOk : Bool
  sendPayloadOk : Bool
deriving DecidableEq, Repr

/-- Identity of a byte buffer handed to `free` in the stream loop:
either the camera-pool frame's own payload (`fb->buf`, which must never be
freed) or the heap buffer allocated by `frame2jpg` in iteration `i`. -/
inductive BufRef
  | fromFrame (i : Nat)
  | allocated (i : Nat)
deriving DecidableEq, Repr

/-- Observable resource / transport events of the handlers.  `fbAcquire`
and `bufAlloc` are ghost markers for successful `esp_camera_fb_get` and
`frame2jpg` allocations; `fbReturn` is `esp_camera_fb_return`; `bufFree`
is `free(_jpg_buf)`; the send events are `httpd_resp_send_chunk` calls
with their outcome; `delayRetry` and `pace` are the two `vTaskDelay`
calls. -/
inductive Ev
  | fbAcquire (i : Nat)
  | fbGetFail (i : Nat)
  | fbReturn (i : Nat)
  | bufAlloc (i : Nat)
  | bufFree (b : BufRef)
  | sendBoundary (ok : Bool)
  | sendHeader (len : Nat) (ok : Bool)
  | sendPayload (len : Nat) (ok : Bool)
  | delayRetry (ms : Nat)
  | pace (ms : Nat)
deriving DecidableEq, Repr

/-- Decimal digit count of a nonnegative integer as printed by `%u`.
Exact for all values below `10^10`, which covers every 32-bit quantity the
firmware can pass to `snprintf`; capped at 11 beyond that (unreachable for
the 32-bit `size_t`/`int` arguments). -/
def natDecLen (n : Nat) : Nat :=
  if n < 10 then 1
  else if n < 100 then 2
  else if n < 1000 then 3
  else if n < 10000 then 4
  else if n < 100000 then 5
  else if n < 1000000 then 6
  else if n < 10000000 then 7
  else if n < 100000000 then 8
  else if n < 1000000000 then 9
  else if n < 10000000000 then 10
  else 11

/-- Printed length of an `int` under `%d`: digits plus a sign for negative
values. -/
def intFmtLen (i : Int) : Nat :=
  if i < 0 then natDecLen i.natAbs + 1 else natDecLen i.natAbs

/-- Printed length of an `int` under `%06d`: zero-padded to at least six
characters. -/
def intFmt06Len (i : Int) : Nat :=
  max 6 (intFmtLen i)

/-- Length of the formatted `_STREAM_PART` block
`"Content-Type: image/jpeg\r\nContent-Length: %u\r\nX-Timestamp: %d.%06d\r\n\r\n"`:
62 fixed characters plus the three formatted numbers
(`_jpg_buf_len`, `tv_sec`, `tv_usec`). -/
def partHeaderLen (bufLen : Nat) (sec usec : Int) : Nat :=
  62 + natDecLen bufLen + intFmtLen sec + intFmt06Len usec

/-- Result of one pass of the `while (true)` body of `stream_handler`:
either the loop continues with the given `error_count` value, or it
breaks out of the loop leaving `error_count` at the given value. -/
inductive IterOut
  | next (errCount : Nat)
  | stop (errCount : Nat)
deriving DecidableEq, Repr

/-- How a bounded simulation of a stream session ended: the loop broke
(`stopped`, with the final value of the static `error_count`), or the
supplied environment trace ran out while the loop was still going
(`ranOut`). -/
inductive RunEnd
  | stopped (errCount : Nat)
  | ranOut (errCount : Nat)
deriving DecidableEq, Repr

/-- Initial value of the function-static counter in `stream_handler`
(`static uint32_t error_count = 0;`), set once at program start. -/
def stream_error_count_init : Nat := 0

/-- Size of the local `char part_buf[128]` in `stream_handler`. -/
def part_buf_size : Nat := 128

/-- The send-and-release phase of a stream iteration (source lines
518-556): boundary chunk, part-header chunk (failing outright if the
formatted header would not fit `part_buf`), payload chunk (only while no
prior send failed, the buffer pointer is non-null and the length is
positive), then the release block (return the frame if still held,
otherwise free the allocated encode buffer), then either break on a send
error or pace with `vTaskDelay(stream_delay_ms)` and continue with
`error_count = 0`. -/
def stream_handler_send (delay bufLen : Nat) (sec usec : Int)
    (bndOk hdrOk plOk : Bool) (fb : Option Nat) (jpgBuf : Option BufRef)
    (evs0 : List Ev) : List Ev × IterOut :=
  let hl := partHeaderLen bufLen sec usec
  let res1 : Bool := bndOk
  let res2 : Bool := if res1 then (if hl < part_buf_size then hdrOk else false) else res1
  let res3 : Bool := if res2 && jpgBuf.isSome && decide (0 < bufLen) then plOk else res2
  let evs := evs0 ++ [Ev.sendBoundary bndOk]
      ++ (if res1 then (if hl < part_buf_size then [Ev.sendHeader hl hdrOk] else []) else [])
      ++ (if res2 && jpgBuf.isSome && decide (0 < bufLen) then [Ev.sendPayload bufLen plOk] else [])
      ++ (match fb with
          | some j => [Ev.fbReturn j]
          | none =>
            match jpgBuf with
            | some b => [Ev.bufFree b]
            | none => [])
  if res3 then (evs ++ [Ev.pace delay], IterOut.next 0) else (evs, IterOut.stop 0)

/-- One pass of the `while (true)` body of `stream_handler` (source lines
480-556), for loop iteration `idx` with current `error_count` value
`errCount`.  On acquisition failure the counter is incremented and the
loop either aborts (counter above 10) or waits 50 ms and retries.  On
success the counter resets to zero; a non-JPEG frame is converted by
`frame2jpg` (the frame is returned to the pool immediately after
conversion, and a conversion failure frees any allocated output buffer
and aborts); then the multipart part is sent. -/
def stream_handler_iter (delay idx errCount : Nat) (inp : IterIn) : List Ev × IterOut :=
  match inp.acquired with
  | none =>
    if errCount + 1 > 10 then ([Ev.fbGetFail idx], IterOut.stop (errCount + 1))
    else ([Ev.fbGetFail idx, Ev.delayRetry 50], IterOut.next (errCount + 1))
  | some f =>
    if f.format = PixFormat.jpeg then
      stream_handler_send delay f.len f.tsSec f.tsUsec
        inp.sendBoundaryOk inp.sendHeaderOk inp.sendPayloadOk
        (some idx) (some (BufRef.fromFrame idx)) [Ev.fbAcquire idx]
    else
      let enc := inp.encode
      let evs := [Ev.fbAcquire idx]
          ++ (if enc.bufAllocated then [Ev.bufAlloc idx] else [])
          ++ [Ev.fbReturn idx]
      if enc.ok = false ∨ enc.bufAllocated = false ∨ enc.bufLen = 0 then
        (evs ++ (if enc.bufAllocated then [Ev.bufFree (BufRef.allocated idx)] else []),
         IterOut.stop 0)
      else
        stream_handler_send delay enc.bufLen f.tsSec f.tsUsec
          inp.sendBoundaryOk inp.sendHeaderOk inp.sendPayloadOk
          none (some (BufRef.allocated idx)) evs

/-- Bounded simulation of a stream session: run the loop body over a finite
trace of per-iteration environments, starting at iteration index `idx`
with `error_count` value `errCount`.  After the loop breaks, the code's
final cleanup block (source lines 558-566) runs; every break path has
already released its resources, so it contributes no events. -/
def stream_handler_run (delay : Nat) : Nat → Nat → List IterIn → List Ev × RunEnd
  | _, errCount, [] => ([], RunEnd.ranOut errCount)
  | idx, errCount, inp :: rest =>
    match stream_handler_iter delay idx errCount inp with
    | (evs, IterOut.next e) =>
      let r := stream_handler_run delay (idx + 1) e rest
      (evs ++ r.1, r.2)
    | (evs, IterOut.stop e) => (evs, RunEnd.stopped e)

/-- Value of the static `error_count` after a (simulated) session ends. -/
def staticErrAfter : RunEnd → Nat
  | RunEnd.stopped e => e
  | RunEnd.ranOut e => e

/-- Whether an iteration environment describes a frame that is successfully
acquired and (if not already JPEG) successfully converted. -/
def iterAcqEnc (inp : IterIn) : Bool :=
  match inp.acquired with
  | none => false
  | some f =>
    if f.format = PixFormat.jpeg then true
    else inp.encode.ok && inp.encode.bufAllocated && decide (0 < inp.encode.bufLen)

/-- The payload length the iteration would send: `fb->len` for a JPEG
frame, else the `frame2jpg` output length. -/
def payloadLen (inp : IterIn) : Nat :=
  match inp.acquired with
  | none => 0
  | some f => if f.format = PixFormat.jpeg then f.len else inp.encode.bufLen

/-- Whether the three chained chunk sends of an iteration all succeed
(including the header-fits-in-`part_buf` check; a zero-length payload is
never sent and cannot fail). -/
def sendChainOk (bufLen : Nat) (sec usec : Int) (bndOk hdrOk plOk : Bool) : Bool :=
  bndOk && decide (partHeaderLen bufLen sec usec < part_buf_size) && hdrOk
    && (decide (bufLen = 0) || plOk)

/-- The `error_count` value after an iteration that continues the loop. -/
def iterNextErr (errCount : Nat) (inp : IterIn) : Nat :=
  match inp.acquired with
  | none => errCount + 1
  | some _ => 0

/-- The `error_count` value left behind by an iteration that breaks the
loop. -/
def iterStopErr (errCount : Nat) (inp : IterIn) : Nat :=
  match inp.acquired with
  | none => errCount + 1
  | some _ => 0

/-- Whether an iteration lets the loop continue: a tolerated acquisition
failure, or a fully delivered frame. -/
def iterContinues (errCount : Nat) (inp : IterIn) : Bool :=
  match inp.acquired with
  | none => decide (errCount + 1 ≤ 10)
  | some f =>
    iterAcqEnc inp &&
      sendChainOk (payloadLen inp) f.tsSec f.tsUsec
        inp.sendBoundaryOk inp.sendHeaderOk inp.sendPayloadOk

/-- Specification-side count of frames successfully acquired and encoded
during a session over the given environment trace. -/
def acqEncCount : Nat → List IterIn → Nat
  | _, [] => 0
  | errCount, inp :: rest =>
    (if iterAcqEnc inp then 1 else 0) +
      (if iterContinues errCount inp then acqEncCount (iterNextErr errCount inp) rest else 0)

/-- Exit guard (a) of the stream loop: the frame was acquired (and encoded
if necessary) but one of the three chunk sends fails. -/
def guardSendFail (inp : IterIn) : Bool :=
  iterAcqEnc inp &&
    (!inp.sendBoundaryOk || !inp.sendHeaderOk
      || (decide (0 < payloadLen inp) && !inp.sendPayloadOk))

/-- Exit guard (b) of the stream loop: acquisition failed and the
incremented consecutive-failure counter exceeds 10. -/
def guardAcqThreshold (errCount : Nat) (inp : IterIn) : Bool :=
  inp.acquired.isNone && decide (10 < errCount + 1)

/-- Exit guard (c) of the stream loop: a frame was acquired but it is not
JPEG and `frame2jpg` failed (returned false, left the output null, or
produced zero bytes). -/
def guardEncodeFail (inp : IterIn) : Bool :=
  inp.acquired.isSome && !(iterAcqEnc inp)

/-- Values representable in the C types the firmware actually passes to
`snprintf`: `size_t` lengths below `2^32` and `int` timestamps in the
32-bit signed range. -/
def wellTypedIter (inp : IterIn) : Bool :=
  decide (inp.encode.bufLen < 4294967296) &&
    (match inp.acquired with
     | none => true
     | some f =>
       decide (f.len < 4294967296) &&
         decide (-2147483648 ≤ f.tsSec) && decide (f.tsSec < 2147483648) &&
         decide (-2147483648 ≤ f.tsUsec) && decide (f.tsUsec < 2147483648))

/-- Event-class predicates used for counting. -/
def isBoundaryEv : Ev → Bool
  | Ev.sendBoundary _ => true
  | _ => false

/-- A pacing delay event (`vTaskDelay(stream_delay_ms)`), emitted exactly
once per fully delivered frame. -/
def isPaceEv : Ev → Bool
  | Ev.pace _ => true
  | _ => false

/-- A successful `esp_camera_fb_get` event. -/
def isFbAcquireEv : Ev → Bool
  | Ev.fbAcquire _ => true
  | _ => false

/-- An `esp_camera_fb_return` event. -/
def isFbReturnEv : Ev → Bool
  | Ev.fbReturn _ => true
  | _ => false

/-- Any `free(_jpg_buf)` event. -/
def isBufFreeEv : Ev → Bool
  | Ev.bufFree _ => true
  | _ => false

/-- The fatal misuse the release discipline must rule out: calling `free`
on the camera pool frame's own payload (`fb->buf`). -/
def isBadFreeEv : Ev → Bool
  | Ev.bufFree (BufRef.fromFrame _) => true
  | _ => false

/-- Environment of one `capture_handler` request: the outcome of each
successive `esp_camera_fb_get` attempt (missing entries fail), the outcome
of `httpd_resp_send` for a JPEG frame, and the combined outcome of the
`frame2jpg_cb` chunked encode for a non-JPEG frame. -/
structure CaptureEnv where
  acquires : List (Option FrameIn)
  sendOk : Bool
  encodeSendOk : Bool
deriving DecidableEq, Repr

/-- The retry loop of `capture_handler` (source lines 416-424): up to
`fuel` attempts starting at attempt index `idx`, with
`vTaskDelay(RETRY_DELAY_MS)` between consecutive attempts (never after the
last). -/
def captureTryAux : List (Option FrameIn) → Nat → Nat → List Ev × Option (Nat × FrameIn)
  | _, _, 0 => ([], none)
  | acquires, idx, fuel + 1 =>
    match acquires.getD idx none with
    | some f => ([Ev.fbAcquire idx], some (idx, f))
    | none =>
      if fuel = 0 then ([Ev.fbGetFail idx], none)
      else
        let r := captureTryAux acquires (idx + 1) fuel
        (Ev.fbGetFail idx :: Ev.delayRetry 50 :: r.1, r.2)

/-- Result of a `capture_handler` request: the event trace, the HTTP status
actually put on the wire (500 via `httpd_resp_send_500`, otherwise the
implicit 200 of the success path), whether a JPEG body was delivered to
the client, and the handler's `esp_err_t`-style result. -/
structure CapOut where
  events : List Ev
  status : Nat
  bodyJpeg : Bool
  espOk : Bool
deriving DecidableEq, Repr

/-- The `/capture` and `/snapshot` handler (source lines 408-453):
`MAX_RETRIES = 3` acquisition attempts with 50 ms between consecutive
attempts; all failing yields `httpd_resp_send_500` and no body; otherwise
headers are set and the frame is sent directly (already JPEG) or through
the `frame2jpg_cb` chunked encode, and the frame is returned to the pool
on every path. -/
def capture_handler (env : CaptureEnv) : CapOut :=
  let r := captureTryAux env.acquires 0 3
  match r.2 with
  | none => { events := r.1, status := 500, bodyJpeg := false, espOk := false }
  | some (i, f) =>
    if f.format = PixFormat.jpeg then
      { events := r.1 ++ [Ev.sendPayload f.len env.sendOk, Ev.fbReturn i],
        status := 200, bodyJpeg := env.sendOk, espOk := env.sendOk }
    else
      { events := r.1 ++ [Ev.sendPayload 0 env.encodeSendOk, Ev.fbReturn i],
        status := 200, bodyJpeg := env.encodeSendOk, espOk := env.encodeSendOk }

/-- Numeric values of the external esp32-camera `framesize_t` enumeration
entries the handlers use (`sensor.h`): `FRAMESIZE_SVGA` and below fit
without PSRAM; `FRAMESIZE_INVALID` is the one-past-the-end sentinel. -/
def FRAMESIZE_SVGA : Nat := 9

/-- `framesize_t` value of `FRAMESIZE_FHD` (1920x1080). -/
def FRAMESIZE_FHD : Nat := 14

/-- `framesize_t` one-past-the-end sentinel `FRAMESIZE_INVALID`. -/
def FRAMESIZE_INVALID : Nat := 22

/-- ASCII lower-casing of one character, as `strcasecmp` compares. -/
def asciiToLower (c : Char) : Char :=
  if 'A' ≤ c ∧ c ≤ 'Z' then Char.ofNat (c.toNat + 32) else c

/-- Case-insensitive ASCII string equality (`strcasecmp(a, b) == 0`). -/
def strCaseEq (a b : String) : Bool :=
  a.data.map asciiToLower == b.data.map asciiToLower

/-- C `isspace` over the characters `atoi` skips. -/
def isSpaceC (c : Char) : Bool :=
  c = ' ' || c = '\t' || c = '\n' || c = '\r' || c = '\x0b' || c = '\x0c'

/-- Accumulate leading decimal digits, stopping at the first non-digit. -/
def digitsVal : List Char → Int → Int
  | [], acc => acc
  | c :: cs, acc =>
    if '0' ≤ c ∧ c ≤ '9' then digitsVal cs (acc * 10 + (c.toNat - 48 : Nat)) else acc

/-- C `atoi`: skip whitespace, optional sign, leading digits (modelled
without the 32-bit overflow wrap, which the control values never reach). -/
def atoi (s : String) : Int :=
  match s.data.dropWhile isSpaceC with
  | '-' :: rest => - digitsVal rest 0
  | '+' :: rest => digitsVal rest 0
  | rest => digitsVal rest 0

/-- Helper `framesize_from_value` (source lines 584-601): named sizes
`"svga"`, `"fhd"`/`"1080p"` case-insensitively, else a numeric index when
in range, defaulting to SVGA. -/
def framesize_from_value (value : String) : Nat :=
  if strCaseEq value "svga" then FRAMESIZE_SVGA
  else if strCaseEq value "fhd" || strCaseEq value "1080p" then FRAMESIZE_FHD
  else
    let idx := atoi value
    if 0 ≤ idx ∧ idx < (FRAMESIZE_INVALID : Int) then idx.toNat
    else FRAMESIZE_SVGA

/-- The sensor-status fields of the Capture Configuration that `/control`
mutates. -/
structure CamConfig where
  framesize : Nat
  quality : Nat
  vflip : Nat
  hmirror : Nat
deriving DecidableEq, Repr

/-- Process-wide mutable state read and written by the control service:
the sensor status plus the global `stream_delay_ms`. -/
structure CtrlState where
  cam : CamConfig
  streamDelayMs : Nat
deriving DecidableEq, Repr

/-- Outcome of the query-string handling at the top of `cmd_handler`:
an empty query string, a parse/extraction failure of `var`/`val`, or both
values extracted. -/
inductive QueryParse
  | empty
  | malformed
  | parsed (varName : String) (valStr : String)
deriving DecidableEq, Repr

/-- Responses `cmd_handler` can produce: `httpd_resp_send_404`,
`httpd_resp_send_500`, or the empty-body success response. -/
inductive CtrlResp
  | notFound404
  | serverError500
  | okEmpty
deriving DecidableEq, Repr

/-- Whether a response is an HTTP client-error (4xx) response. -/
def isClientError : CtrlResp → Bool
  | CtrlResp.notFound404 => true
  | _ => false

/-- The `/control` handler `cmd_handler` (source lines 618-694): empty or
malformed query strings yield 404; a missing sensor yields 500; the five
recognized variables clamp their values into range and apply them; any
other variable name yields `httpd_resp_send_500`. -/
def cmd_handler (psram sensorPresent : Bool) (st : CtrlState) (q : QueryParse) :
    CtrlResp × CtrlState :=
  match q with
  | QueryParse.empty => (CtrlResp.notFound404, st)
  | QueryParse.malformed => (CtrlResp.notFound404, st)
  | QueryParse.parsed varName valStr =>
    if sensorPresent = false then (CtrlResp.serverError500, st)
    else
      let val := atoi valStr
      if varName = "framesize" then
        let target := framesize_from_value valStr
        let target := if psram = false ∧ FRAMESIZE_SVGA < target then FRAMESIZE_SVGA else target
        (CtrlResp.okEmpty, { st with cam := { st.cam with framesize := target } })
      else if varName = "quality" then
        let v := if val < 5 then 5 else val
        let v := if 63 < v then 63 else v
        (CtrlResp.okEmpty, { st with cam := { st.cam with quality := v.toNat } })
      else if varName = "stream_delay" then
        let v := if val < 33 then 33 else val
        let v := if 500 < v then 500 else v
        (CtrlResp.okEmpty, { st with streamDelayMs := v.toNat })
      else if varName = "vflip" then
        let v := if val < 0 then 0 else val
        let v := if 1 < v then 1 else v
        (CtrlResp.okEmpty, { st with cam := { st.cam with vflip := v.toNat } })
      else if varName = "hmirror" then
        let v := if val < 0 then 0 else val
        let v := if 1 < v then 1 else v
        (CtrlResp.okEmpty, { st with cam := { st.cam with hmirror := v.toNat } })
      else (CtrlResp.serverError500, st)

/-- Declared valid ranges of the Capture Configuration fields: a valid
`framesize_t` (at most SVGA without PSRAM), quality in `[5, 63]`, binary
orientation flags, and `stream_delay_ms` in `[33, 500]`. -/
def wellFormedCtrl (psram : Bool) (st : CtrlState) : Prop :=
  st.cam.framesize < FRAMESIZE_INVALID ∧
  (psram = false → st.cam.framesize ≤ FRAMESIZE_SVGA) ∧
  5 ≤ st.cam.quality ∧ st.cam.quality ≤ 63 ∧
  st.cam.vflip ≤ 1 ∧ st.cam.hmirror ≤ 1 ∧
  33 ≤ st.streamDelayMs ∧ st.streamDelayMs ≤ 500

instance (psram : Bool) (st : CtrlState) : Decidable (wellFormedCtrl psram st) := by
  unfold wellFormedCtrl
  infer_instance

/-- Capture Configuration at the end of `initCamera` with PSRAM present:
SVGA, quality 12, no flips, and the default 33 ms stream pacing. -/
def initialCtrlState : CtrlState :=
  { cam := { framesize := FRAMESIZE_SVGA, quality := 12, vflip := 0, hmirror := 0 },
    streamDelayMs := 33 }

/-- State owned by `startCameraServer` (source lines 359-360 and 744-836):
the two `httpd_handle_t` globals, the `server_started` flag, and the URI
handlers registered on each port. -/
structure ServerState where
  cameraHttpd : Option Nat
  snapshotHttpd : Option Nat
  serverStarted : Bool
  port80Handlers : List String
  port81Handlers : List String
deriving DecidableEq, Repr

/-- Outcomes of the two `httpd_start` calls. -/
structure StartEnv where
  start80Ok : Bool
  start81Ok : Bool
deriving DecidableEq, Repr

/-- Externally visible actions of `startCameraServer`. -/
inductive StartEv
  | httpdStart (port : Nat) (ok : Bool)
  | registerUri (port : Nat) (uri : String)
deriving DecidableEq, Repr

/-- The six URI handlers registered on port 80, in registration order. -/
def port80Uris : List String :=
  ["/", "/status", "/control", "/capture", "/stream", "/health"]

/-- `startCameraServer` (source lines 744-836): a no-op success when the
port-80 handle already exists; otherwise start port 80 (failure leaves
`server_started` false), register the six handlers, start port 81 for
`/snapshot` (failure leaves `server_started` false with port 80 still
serving), register `/snapshot`, and set `server_started`. -/
def startCameraServer (st : ServerState) (env : StartEnv) : ServerState × List StartEv :=
  match st.cameraHttpd with
  | some _ => ({ st with serverStarted := true }, [])
  | none =>
    if env.start80Ok = false then
      ({ st with serverStarted := false }, [StartEv.httpdStart 80 false])
    else
      let st1 := { st with cameraHttpd := some 0,
                           port80Handlers := st.port80Handlers ++ port80Uris }
      let evs1 := StartEv.httpdStart 80 true :: port80Uris.map (StartEv.registerUri 80)
      if env.start81Ok = false then
        ({ st1 with serverStarted := false }, evs1 ++ [StartEv.httpdStart 81 false])
      else
        ({ st1 with snapshotHttpd := some 1, serverStarted := true,
                    port81Handlers := st1.port81Handlers ++ ["/snapshot"] },
         evs1 ++ [StartEv.httpdStart 81 true, StartEv.registerUri 81 "/snapshot"])

/-- The pristine server state at boot. -/
def initialServerState : ServerState :=
  { cameraHttpd := none, snapshotHttpd := none, serverStarted := false,
    port80Handlers := [], port81Handlers := [] }

/-- A `frame2jpg` outcome placeholder for iterations that never reach the
encoder. -/
def encUnused : EncodeOut := { ok := false, bufAllocated := false, bufLen := 0 }

/-- An iteration whose `esp_camera_fb_get` returns no frame. -/
def acquireFailIter : IterIn :=
  { acquired := none, encode := encUnused,
    sendBoundaryOk := true, sendHeaderOk := true, sendPayloadOk := true }

/-- A 1000-byte JPEG frame captured at time 0. -/
def jpegOkFrame : FrameIn :=
  { format := PixFormat.jpeg, len := 1000, tsSec := 0, tsUsec := 0 }

/-- An iteration that acquires `jpegOkFrame` and whose sends all succeed. -/
def jpegOkIter : IterIn :=
  { acquired := some jpegOkFrame, encode := encUnused,
    sendBoundaryOk := true, sendHeaderOk := true, sendPayloadOk := true }

/-- An iteration that acquires `jpegOkFrame` but whose first chunk send
(the boundary) fails: the write sink has gone away. -/
def boundaryFailIter : IterIn :=
  { jpegOkIter with sendBoundaryOk := false }

/-- A session environment whose write sink first fails on the 5th frame. -/
def sinkFailAt5Trace : List IterIn :=
  [jpegOkIter, jpegOkIter, jpegOkIter, jpegOkIter, boundaryFailIter]

/-- An acquisition attempt of `capture_handler` (successful or not). -/
def isAttemptEv : Ev → Bool
  | Ev.fbAcquire _ => true
  | Ev.fbGetFail _ => true
  | _ => false

/-- Whether the stream iteration allocates a `frame2jpg` output buffer. -/
def allocHappened (inp : IterIn) : Bool :=
  match inp.acquired with
  | none => false
  | some f => decide (f.format ≠ PixFormat.jpeg) && inp.encode.bufAllocated

section ArithBounds

lemma natDecLen_le_ten {n : Nat} (h : n < 4294967296) : natDecLen n ≤ 10 := by
  unfold natDecLen
  split_ifs <;> omega

lemma intFmtLen_le_eleven {i : Int} (h1 : -2147483648 ≤ i) (h2 : i < 2147483648) :
    intFmtLen i ≤ 11 := by
  have habs : i.natAbs ≤ 2147483648 := by omega
  have hd : natDecLen i.natAbs ≤ 10 := natDecLen_le_ten (by omega)
  unfold intFmtLen
  split_ifs <;> omega

lemma partHeaderLen_lt_part_buf {bufLen : Nat} {sec usec : Int}
    (hl : bufLen < 4294967296)
    (hs1 : -2147483648 ≤ sec) (hs2 : sec < 2147483648)
    (hu1 : -2147483648 ≤ usec) (hu2 : usec < 2147483648) :
    partHeaderLen bufLen sec usec < part_buf_size := by
  have h1 := natDecLen_le_ten hl
  have h2 := intFmtLen_le_eleven hs1 hs2
  have h3 := intFmtLen_le_eleven hu1 hu2
  unfold partHeaderLen intFmt06Len part_buf_size
  omega

end ArithBounds

section SendLemmas

lemma stream_handler_send_snd (delay bufLen : Nat) (sec usec : Int)
    (bndOk hdrOk plOk : Bool) (fb : Option Nat) (jb : BufRef) (evs0 : List Ev) :
    (stream_handler_send delay bufLen sec usec bndOk hdrOk plOk fb (some jb) evs0).2 =
      if sendChainOk bufLen sec usec bndOk hdrOk plOk then IterOut.next 0
      else IterOut.stop 0 := by
  by_cases hb : bufLen = 0
  · subst hb
    by_cases hh : partHeaderLen 0 sec usec < part_buf_size <;>
      cases bndOk <;> cases hdrOk <;> cases plOk <;>
        simp [stream_handler_send, sendChainOk, hh]
  · by_cases hh : partHeaderLen bufLen sec usec < part_buf_size <;>
      cases bndOk <;> cases hdrOk <;> cases plOk <;>
        simp [stream_handler_send, sendChainOk, hh, hb]

lemma ite_pair_next_last {c : Prop} [Decidable c] {A B evs : List Ev} {e d : Nat}
    (h : (if c then (A ++ [Ev.pace d], IterOut.next 0) else (B, IterOut.stop 0)) =
      (evs, IterOut.next e)) :
    evs.getLast? = some (Ev.pace d) := by
  split at h
  · rw [Prod.mk.injEq] at h
    rw [← h.1]
    exact List.getLast?_concat _
  · rw [Prod.mk.injEq] at h
    exact absurd h.2 (by simp)

lemma stream_handler_send_next_last {delay bufLen : Nat} {sec usec : Int}
    {bndOk hdrOk plOk : Bool} {fb : Option Nat} {jpgBuf : Option BufRef}
    {evs0 evs : List Ev} {e : Nat}
    (h : stream_handler_send delay bufLen sec usec bndOk hdrOk plOk fb jpgBuf evs0 =
      (evs, IterOut.next e)) :
    evs.getLast? = some (Ev.pace delay) := by
  unfold stream_handler_send at h
  exact ite_pair_next_last h

lemma stream_handler_send_countP (p : Ev → Bool)
    (pb : ∀ ok, p (Ev.sendBoundary ok) = false)
    (ph : ∀ l ok, p (Ev.sendHeader l ok) = false)
    (pp : ∀ l ok, p (Ev.sendPayload l ok) = false)
    (ppc : ∀ m, p (Ev.pace m) = false)
    (delay bufLen : Nat) (sec usec : Int) (bndOk hdrOk plOk : Bool)
    (fb : Option Nat) (jpgBuf : Option BufRef) (evs0 : List Ev) :
    ((stream_handler_send delay bufLen sec usec bndOk hdrOk plOk fb jpgBuf evs0).1).countP p =
      evs0.countP p +
        (match fb with
         | some j => if p (Ev.fbReturn j) then 1 else 0
         | none =>
           match jpgBuf with
           | some b => if p (Ev.bufFree b) then 1 else 0
           | none => 0) := by
  cases fb <;> cases jpgBuf <;>
    by_cases hh : partHeaderLen bufLen sec usec < part_buf_size <;>
      by_cases h0 : 0 < bufLen <;>
        cases bndOk <;> cases hdrOk <;> cases plOk <;>
          simp [stream_handler_send, hh, h0, List.countP_append, List.countP_cons,
            pb, ph, pp, ppc]

lemma stream_handler_send_countP_boundary
    (delay bufLen : Nat) (sec usec : Int) (bndOk hdrOk plOk : Bool)
    (fb : Option Nat) (jpgBuf : Option BufRef) (evs0 : List Ev) :
    ((stream_handler_send delay bufLen sec usec bndOk hdrOk plOk fb jpgBuf evs0).1).countP
        isBoundaryEv =
      evs0.countP isBoundaryEv + 1 := by
  cases fb <;> cases jpgBuf <;>
    by_cases hh : partHeaderLen bufLen sec usec < part_buf_size <;>
      by_cases h0 : 0 < bufLen <;>
        cases bndOk <;> cases hdrOk <;> cases plOk <;>
          simp [stream_handler_send, hh, h0, List.countP_append, List.countP_cons,
            isBoundaryEv]

end SendLemmas

section IterLemmas

lemma iterAcqEnc_false_of_encFail {inp : IterIn} {f : FrameIn}
    (hq : inp.acquired = some f) (hf : ¬f.format = PixFormat.jpeg)
    (henc : inp.encode.ok = false ∨ inp.encode.bufAllocated = false ∨ inp.encode.bufLen = 0) :
    iterAcqEnc inp = false := by
  rcases henc with h | h | h <;> simp [iterAcqEnc, hq, hf, h]

lemma iterAcqEnc_true_of_encOk {inp : IterIn} {f : FrameIn}
    (hq : inp.acquired = some f) (hf : ¬f.format = PixFormat.jpeg)
    (henc : ¬(inp.encode.ok = false ∨ inp.encode.bufAllocated = false ∨ inp.encode.bufLen = 0)) :
    iterAcqEnc inp = true := by
  push_neg at henc
  obtain ⟨h1, h2, h3⟩ := henc
  simp only [Bool.not_eq_false] at h1 h2
  simp [iterAcqEnc, hq, hf, h1, h2, Nat.pos_of_ne_zero h3]

lemma stream_handler_iter_snd (delay idx e : Nat) (inp : IterIn) :
    (stream_handler_iter delay idx e inp).2 =
      if iterContinues e inp then IterOut.next (iterNextErr e inp)
      else IterOut.stop (iterStopErr e inp) := by
  rcases hq : inp.acquired with _ | f
  · by_cases h : e + 1 ≤ 10
    · have h2 : ¬(e + 1 > 10) := by omega
      simp [stream_handler_iter, hq, iterContinues, iterNextErr, h, h2]
    · have h2 : e + 1 > 10 := by omega
      simp [stream_handler_iter, hq, iterContinues, iterStopErr, h, h2]
  · by_cases hf : f.format = PixFormat.jpeg
    · have hA : iterAcqEnc inp = true := by simp [iterAcqEnc, hq, hf]
      simp only [stream_handler_iter, hq, hf, if_true]
      rw [stream_handler_send_snd]
      simp [iterContinues, hq, hA, payloadLen, hf, iterNextErr, iterStopErr]
    · by_cases henc : inp.encode.ok = false ∨ inp.encode.bufAllocated = false ∨
        inp.encode.bufLen = 0
      · have hA := iterAcqEnc_false_of_encFail hq hf henc
        simp [stream_handler_iter, hq, hf, henc, iterContinues, hA, iterStopErr]
      · have hA := iterAcqEnc_true_of_encOk hq hf henc
        simp only [stream_handler_iter, hq, hf, if_false, henc, ite_false]
        rw [stream_handler_send_snd]
        simp [iterContinues, hq, hA, payloadLen, hf, iterNextErr, iterStopErr, henc]

lemma stream_handler_iter_countP (p : Ev → Bool)
    (pb : ∀ ok, p (Ev.sendBoundary ok) = false)
    (ph : ∀ l ok, p (Ev.sendHeader l ok) = false)
    (pp : ∀ l ok, p (Ev.sendPayload l ok) = false)
    (ppc : ∀ m, p (Ev.pace m) = false)
    (pgf : ∀ j, p (Ev.fbGetFail j) = false)
    (pdr : ∀ m, p (Ev.delayRetry m) = false)
    (delay idx e : Nat) (inp : IterIn) :
    ((stream_handler_iter delay idx e inp).1).countP p =
      match inp.acquired with
      | none => 0
      | some f =>
        (if p (Ev.fbAcquire idx) then 1 else 0) + (if p (Ev.fbReturn idx) then 1 else 0) +
          (if f.format = PixFormat.jpeg then 0
           else if inp.encode.bufAllocated then
             (if p (Ev.bufAlloc idx) then 1 else 0) +
               (if p (Ev.bufFree (BufRef.allocated idx)) then 1 else 0)
           else 0) := by
  rcases hq : inp.acquired with _ | f
  · by_cases h2 : e + 1 > 10 <;>
      simp [stream_handler_iter, hq, h2, List.countP_cons, pgf, pdr]
  · by_cases hf : f.format = PixFormat.jpeg
    · simp only [stream_handler_iter, hq, hf, if_true]
      rw [stream_handler_send_countP p pb ph pp ppc]
      simp [List.countP_cons, hf]
    · by_cases henc : inp.encode.ok = false ∨ inp.encode.bufAllocated = false ∨
        inp.encode.bufLen = 0
      · simp only [stream_handler_iter, hq, if_neg hf]
        rw [if_pos henc]
        cases halloc : inp.encode.bufAllocated <;>
          simp [List.countP_append, List.countP_cons, hf, halloc] <;> omega
      · have halloc : inp.encode.bufAllocated = true := by
          cases h : inp.encode.bufAllocated
          · exact absurd (Or.inr (Or.inl h)) henc
          · rfl
        simp only [stream_handler_iter, hq, if_neg hf]
        rw [if_neg henc]
        rw [stream_handler_send_countP p pb ph pp ppc]
        simp [List.countP_append, List.countP_cons, hf, halloc]
        omega

lemma stream_handler_iter_count_acq (delay idx e : Nat) (inp : IterIn) (i : Nat) :
    ((stream_handler_iter delay idx e inp).1).count (Ev.fbAcquire i) =
      if inp.acquired.isSome ∧ i = idx then 1 else 0 := by
  rw [List.count_eq_countP,
    stream_handler_iter_countP _ (fun _ => by simp) (fun _ _ => by simp) (fun _ _ => by simp)
      (fun _ => by simp) (fun _ => by simp) (fun _ => by simp)]
  rcases hq : inp.acquired with _ | f
  · simp
  · by_cases hi : i = idx <;> by_cases hf : f.format = PixFormat.jpeg <;>
      cases halloc : inp.encode.bufAllocated <;> simp [hi, hf, halloc] <;> omega

lemma stream_handler_iter_count_ret (delay idx e : Nat) (inp : IterIn) (i : Nat) :
    ((stream_handler_iter delay idx e inp).1).count (Ev.fbReturn i) =
      if inp.acquired.isSome ∧ i = idx then 1 else 0 := by
  rw [List.count_eq_countP,
    stream_handler_iter_countP _ (fun _ => by simp) (fun _ _ => by simp) (fun _ _ => by simp)
      (fun _ => by simp) (fun _ => by simp) (fun _ => by simp)]
  rcases hq : inp.acquired with _ | f
  · simp
  · by_cases hi : i = idx <;> by_cases hf : f.format = PixFormat.jpeg <;>
      cases halloc : inp.encode.bufAllocated <;> simp [hi, hf, halloc] <;> omega

lemma stream_handler_iter_count_alloc (delay idx e : Nat) (inp : IterIn) (i : Nat) :
    ((stream_handler_iter delay idx e inp).1).count (Ev.bufAlloc i) =
      if allocHappened inp ∧ i = idx then 1 else 0 := by
  rw [List.count_eq_countP,
    stream_handler_iter_countP _ (fun _ => by simp) (fun _ _ => by simp) (fun _ _ => by simp)
      (fun _ => by simp) (fun _ => by simp) (fun _ => by simp)]
  rcases hq : inp.acquired with _ | f
  · simp [allocHappened, hq]
  · by_cases hi : i = idx <;> by_cases hf : f.format = PixFormat.jpeg <;>
      cases halloc : inp.encode.bufAllocated <;> simp [allocHappened, hq, hi, hf, halloc] <;>
        omega

lemma stream_handler_iter_count_freeAlloc (delay idx e : Nat) (inp : IterIn) (i : Nat) :
    ((stream_handler_iter delay idx e inp).1).count (Ev.bufFree (BufRef.allocated i)) =
      if allocHappened inp ∧ i = idx then 1 else 0 := by
  rw [List.count_eq_countP,
    stream_handler_iter_countP _ (fun _ => by simp) (fun _ _ => by simp) (fun _ _ => by simp)
      (fun _ => by simp) (fun _ => by simp) (fun _ => by simp)]
  rcases hq : inp.acquired with _ | f
  · simp [allocHappened, hq]
  · by_cases hi : i = idx <;> by_cases hf : f.format = PixFormat.jpeg <;>
      cases halloc : inp.encode.bufAllocated <;> simp [allocHappened, hq, hi, hf, halloc] <;>
        omega

lemma stream_handler_iter_countP_badFree (delay idx e : Nat) (inp : IterIn) :
    ((stream_handler_iter delay idx e inp).1).countP isBadFreeEv = 0 := by
  rw [stream_handler_iter_countP _ (fun _ => by simp [isBadFreeEv])
    (fun _ _ => by simp [isBadFreeEv]) (fun _ _ => by simp [isBadFreeEv])
    (fun _ => by simp [isBadFreeEv]) (fun _ => by simp [isBadFreeEv])
    (fun _ => by simp [isBadFreeEv])]
  rcases hq : inp.acquired with _ | f
  · rfl
  · by_cases hf : f.format = PixFormat.jpeg <;>
      cases halloc : inp.encode.bufAllocated <;> simp [isBadFreeEv, hf, halloc]

lemma stream_handler_iter_countP_boundary (delay idx e : Nat) (inp : IterIn) :
    ((stream_handler_iter delay idx e inp).1).countP isBoundaryEv =
      if iterAcqEnc inp then 1 else 0 := by
  rcases hq : inp.acquired with _ | f
  · by_cases h2 : e + 1 > 10 <;>
      simp [stream_handler_iter, hq, h2, List.countP_cons, iterAcqEnc, isBoundaryEv]
  · by_cases hf : f.format = PixFormat.jpeg
    · have hA : iterAcqEnc inp = true := by simp [iterAcqEnc, hq, hf]
      simp only [stream_handler_iter, hq, hf, if_true]
      rw [stream_handler_send_countP_boundary]
      simp [List.countP_cons, isBoundaryEv, hA]
    · by_cases henc : inp.encode.ok = false ∨ inp.encode.bufAllocated = false ∨
        inp.encode.bufLen = 0
      · have hA := iterAcqEnc_false_of_encFail hq hf henc
        simp only [stream_handler_iter, hq, if_neg hf]
        rw [if_pos henc]
        cases halloc : inp.encode.bufAllocated <;>
          simp [List.countP_append, List.countP_cons, isBoundaryEv, halloc, hA]
      · have hA := iterAcqEnc_true_of_encOk hq hf henc
        simp only [stream_handler_iter, hq, hf, if_false, henc, ite_false]
        rw [stream_handler_send_countP_boundary]
        simp [List.countP_append, List.countP_cons, isBoundaryEv, hA]

end IterLemmas

section RunLemmas

lemma stream_handler_run_count_ret_eq_acq (delay : Nat) :
    ∀ (trace : List IterIn) (idx e i : Nat),
      ((stream_handler_run delay idx e trace).1).count (Ev.fbReturn i) =
        ((stream_handler_run delay idx e trace).1).count (Ev.fbAcquire i) := by
  intro trace
  induction trace with
  | nil => intro idx e i; simp [stream_handler_run]
  | cons inp rest ih =>
    intro idx e i
    have h1 := stream_handler_iter_count_acq delay idx e inp i
    have h2 := stream_handler_iter_count_ret delay idx e inp i
    rcases hI : stream_handler_iter delay idx e inp with ⟨evs, out⟩
    rw [hI] at h1 h2
    cases out with
    | next e2 =>
      simp only [stream_handler_run, hI, List.count_append]
      rw [h1, h2, ih]
    | stop e2 =>
      simp only [stream_handler_run, hI]
      rw [h1, h2]

lemma stream_handler_run_count_free_eq_alloc (delay : Nat) :
    ∀ (trace : List IterIn) (idx e i : Nat),
      ((stream_handler_run delay idx e trace).1).count (Ev.bufFree (BufRef.allocated i)) =
        ((stream_handler_run delay idx e trace).1).count (Ev.bufAlloc i) := by
  intro trace
  induction trace with
  | nil => intro idx e i; simp [stream_handler_run]
  | cons inp rest ih =>
    intro idx e i
    have h1 := stream_handler_iter_count_alloc delay idx e inp i
    have h2 := stream_handler_iter_count_freeAlloc delay idx e inp i
    rcases hI : stream_handler_iter delay idx e inp with ⟨evs, out⟩
    rw [hI] at h1 h2
    cases out with
    | next e2 =>
      simp only [stream_handler_run, hI, List.count_append]
      rw [h1, h2, ih]
    | stop e2 =>
      simp only [stream_handler_run, hI]
      rw [h1, h2]

lemma stream_handler_run_countP_badFree (delay : Nat) :
    ∀ (trace : List IterIn) (idx e : Nat),
      ((stream_handler_run delay idx e trace).1).countP isBadFreeEv = 0 := by
  intro trace
  induction trace with
  | nil => intro idx e; simp [stream_handler_run]
  | cons inp rest ih =>
    intro idx e
    have h1 := stream_handler_iter_countP_badFree delay idx e inp
    rcases hI : stream_handler_iter delay idx e inp with ⟨evs, out⟩
    rw [hI] at h1
    cases out with
    | next e2 =>
      simp only [stream_handler_run, hI, List.countP_append]
      rw [h1, ih]
    | stop e2 =>
      simp only [stream_handler_run, hI]
      rw [h1]

lemma stream_handler_run_count_acq_bound (delay : Nat) :
    ∀ (trace : List IterIn) (idx e i : Nat),
      (i < idx → ((stream_handler_run delay idx e trace).1).count (Ev.fbAcquire i) = 0) ∧
        ((stream_handler_run delay idx e trace).1).count (Ev.fbAcquire i) ≤ 1 := by
  intro trace
  induction trace with
  | nil => intro idx e i; simp [stream_handler_run]
  | cons inp rest ih =>
    intro idx e i
    have h1 := stream_handler_iter_count_acq delay idx e inp i
    rcases hI : stream_handler_iter delay idx e inp with ⟨evs, out⟩
    rw [hI] at h1
    cases out with
    | next e2 =>
      obtain ⟨ihz, ihb⟩ := ih (idx + 1) e2 i
      simp only [stream_handler_run, hI, List.count_append]
      refine ⟨?_, ?_⟩
      · intro hlt
        rw [h1, ihz (by omega)]
        have hni : ¬(inp.acquired.isSome ∧ i = idx) := by
          rintro ⟨_, rfl⟩; omega
        rw [if_neg hni]
      · by_cases hii : i = idx
        · rw [h1, ihz (by omega)]
          split_ifs <;> omega
        · have hni : ¬(inp.acquired.isSome ∧ i = idx) := by
            rintro ⟨_, h⟩; exact hii h
          rw [h1, if_neg hni]
          simpa using ihb
    | stop e2 =>
      simp only [stream_handler_run, hI]
      refine ⟨?_, ?_⟩
      · intro hlt
        have hni : ¬(inp.acquired.isSome ∧ i = idx) := by
          rintro ⟨_, rfl⟩; omega
        rw [h1, if_neg hni]
      · rw [h1]; split_ifs <;> omega

lemma stream_handler_run_count_alloc_bound (delay : Nat) :
    ∀ (trace : List IterIn) (idx e i : Nat),
      (i < idx → ((stream_handler_run delay idx e trace).1).count (Ev.bufAlloc i) = 0) ∧
        ((stream_handler_run delay idx e trace).1).count (Ev.bufAlloc i) ≤ 1 := by
  intro trace
  induction trace with
  | nil => intro idx e i; simp [stream_handler_run]
  | cons inp rest ih =>
    intro idx e i
    have h1 := stream_handler_iter_count_alloc delay idx e inp i
    rcases hI : stream_handler_iter delay idx e inp with ⟨evs, out⟩
    rw [hI] at h1
    cases out with
    | next e2 =>
      obtain ⟨ihz, ihb⟩ := ih (idx + 1) e2 i
      simp only [stream_handler_run, hI, List.count_append]
      refine ⟨?_, ?_⟩
      · intro hlt
        rw [h1, ihz (by omega)]
        have hni : ¬(allocHappened inp = true ∧ i = idx) := by
          rintro ⟨_, rfl⟩; omega
        rw [if_neg hni]
      · by_cases hii : i = idx
        · rw [h1, ihz (by omega)]
          split_ifs <;> omega
        · have hni : ¬(allocHappened inp = true ∧ i = idx) := by
            rintro ⟨_, h⟩; exact hii h
          rw [h1, if_neg hni]
          simpa using ihb
    | stop e2 =>
      simp only [stream_handler_run, hI]
      refine ⟨?_, ?_⟩
      · intro hlt
        have hni : ¬(allocHappened inp = true ∧ i = idx) := by
          rintro ⟨_, rfl⟩; omega
        rw [h1, if_neg hni]
      · rw [h1]; split_ifs <;> omega

lemma stream_handler_run_countP_boundary (delay : Nat) :
    ∀ (trace : List IterIn) (idx e : Nat),
      ((stream_handler_run delay idx e trace).1).countP isBoundaryEv = acqEncCount e trace := by
  intro trace
  induction trace with
  | nil => intro idx e; simp [stream_handler_run, acqEncCount]
  | cons inp rest ih =>
    intro idx e
    have hb := stream_handler_iter_countP_boundary delay idx e inp
    have hsnd := stream_handler_iter_snd delay idx e inp
    rcases hI : stream_handler_iter delay idx e inp with ⟨evs, out⟩
    rw [hI] at hb hsnd
    by_cases hc : iterContinues e inp
    · rw [if_pos hc] at hsnd
      simp only at hsnd
      subst hsnd
      simp only [stream_handler_run, hI, List.countP_append]
      rw [hb, ih (idx + 1) (iterNextErr e inp)]
      simp [acqEncCount, hc]
    · rw [if_neg hc] at hsnd
      simp only at hsnd
      subst hsnd
      simp only [stream_handler_run, hI]
      rw [hb]
      simp [acqEncCount, hc]

end RunLemmas

section CaptureLemmas

lemma captureTryAux_counts (acquires : List (Option FrameIn)) :
    ∀ (fuel idx i : Nat),
      ((captureTryAux acquires idx fuel).1).count (Ev.fbReturn i) = 0 ∧
      ((captureTryAux acquires idx fuel).1).countP isBufFreeEv = 0 ∧
      ((captureTryAux acquires idx fuel).1).count (Ev.fbAcquire i) =
        (match (captureTryAux acquires idx fuel).2 with
         | some (j, _) => if j = i then 1 else 0
         | none => 0) := by
  intro fuel
  induction fuel with
  | zero => intro idx i; simp [captureTryAux]
  | succ fuel ih =>
    intro idx i
    rcases hA : acquires.getD idx none with _ | f
    · by_cases hz : fuel = 0
      · subst hz
        simp only [captureTryAux, hA]
        simp [isBufFreeEv, List.count_cons, List.countP_cons]
      · obtain ⟨ih1, ih2, ih3⟩ := ih (idx + 1) i
        simp only [captureTryAux, hA, if_neg hz]
        simp [List.count_cons, List.countP_cons, isBufFreeEv, ih1, ih2, ih3]
    · simp only [captureTryAux, hA]
      by_cases hj : idx = i <;>
        simp [isBufFreeEv, List.count_cons, List.countP_cons, hj]

lemma capture_handler_counts (env : CaptureEnv) (i : Nat) :
    ((capture_handler env).events).count (Ev.fbReturn i) =
      ((capture_handler env).events).count (Ev.fbAcquire i) ∧
    ((capture_handler env).events).count (Ev.fbAcquire i) ≤ 1 ∧
    ((capture_handler env).events).countP isBufFreeEv = 0 := by
  obtain ⟨h1, h2, h3⟩ := captureTryAux_counts env.acquires 3 0 i
  rcases hR : (captureTryAux env.acquires 0 3).2 with _ | ⟨j, f⟩
  · rw [hR] at h3
    simp only at h3
    simp only [capture_handler, hR]
    exact ⟨by rw [h1, h3], by rw [h3]; omega, h2⟩
  · rw [hR] at h3
    simp only at h3
    simp only [capture_handler, hR]
    by_cases hf : f.format = PixFormat.jpeg <;>
      [rw [if_pos hf]; rw [if_neg hf]] <;>
      · dsimp only
        refine ⟨?_, ?_, ?_⟩
        · simp only [List.count_append, h1, h3, List.count_cons, List.count_nil]
          by_cases hj : j = i <;> simp [hj]
        · simp only [List.count_append, h3, List.count_cons, List.count_nil]
          by_cases hj : j = i <;> simp [hj]
        · simp only [List.countP_append, h2, List.countP_cons, List.countP_nil]
          simp [isBufFreeEv]

end CaptureLemmas

/-- A server state in which both listeners are up, as after a fully
successful `startCameraServer` call. -/
def servingServerState : ServerState :=
  { cameraHttpd := some 0, snapshotHttpd := some 1, serverStarted := true,
    port80Handlers := port80Uris, port81Handlers := ["/snapshot"] }

/-- The server state after a first `startCameraServer` call in which the
port-80 start succeeds but the port-81 start fails. -/
def degradedStartState : ServerState :=
  (startCameraServer initialServerState { start80Ok := true, start81Ok := false }).1

/-- C9: calling `startCameraServer` when the primary listener handle
already exists is a no-op that reports success: it sets `server_started`
to true, changes nothing else, starts no listener and registers no
handler. -/
theorem startCameraServer_idempotent :
    ∀ (st : ServerState) (env : StartEnv) (hdl : Nat),
      st.cameraHttpd = some hdl →
      startCameraServer st env = ({ st with serverStarted := true }, ([] : List StartEv)) := by
  intro st env hdl h
  simp [startCameraServer, h]

/-- Witness for C9 at a concrete running-server state. -/
theorem startCameraServer_idempotent_witness :
    servingServerState.cameraHttpd = some 0 ∧
    startCameraServer servingServerState { start80Ok := false, start81Ok := false } =
      ({ servingServerState with serverStarted := true }, ([] : List StartEv)) :=
  ⟨rfl, startCameraServer_idempotent servingServerState
    { start80Ok := false, start81Ok := false } 0 rfl⟩

/-- C10: when the port-80 server starts but the port-81 snapshot server
fails to start, `startCameraServer` leaves `server_started` false with all
six port-80 handlers registered; every later call then reports success
immediately (flag true, no events) and the port-81 snapshot listener is
never started. -/
theorem startCameraServer_port81_failure_degraded :
    degradedStartState.serverStarted = false ∧
    degradedStartState.cameraHttpd = some 0 ∧
    degradedStartState.port80Handlers =
      ["/", "/status", "/control", "/capture", "/stream", "/health"] ∧
    degradedStartState.snapshotHttpd = none ∧
    degradedStartState.port81Handlers = [] ∧
    ∀ env2 : StartEnv,
      startCameraServer degradedStartState env2 =
        ({ degradedStartState with serverStarted := true }, ([] : List StartEv)) :=
  ⟨rfl, rfl, rfl, rfl, rfl, fun _ => rfl⟩

/-- C6 counterexample: a `/control` request with the unrecognized variable
name `foo` is answered with `httpd_resp_send_500`, a server-error response,
not a client-error response (the claim asserts a client error). The
configuration is left unchanged. -/
theorem control_unknown_var_is_server_error :
    cmd_handler true true initialCtrlState (QueryParse.parsed "foo" "1") =
      (CtrlResp.serverError500, initialCtrlState) ∧
    isClientError CtrlResp.serverError500 = false :=
  ⟨by decide, rfl⟩

/-- C6 amended: a `/control` request with an unrecognized variable name is
rejected with a server-error (500) response and no configuration mutation;
an empty or malformed query string is rejected with a 404 client-error
response and no configuration mutation. -/
theorem control_rejects_without_mutation :
    ∀ (psram sensor : Bool) (st : CtrlState) (vn vv : String),
      (vn ≠ "framesize" → vn ≠ "quality" → vn ≠ "stream_delay" → vn ≠ "vflip" →
        vn ≠ "hmirror" →
        cmd_handler psram sensor st (QueryParse.parsed vn vv) =
          (CtrlResp.serverError500, st)) ∧
      cmd_handler psram sensor st QueryParse.empty = (CtrlResp.notFound404, st) ∧
      cmd_handler psram sensor st QueryParse.malformed = (CtrlResp.notFound404, st) := by
  intro psram sensor st vn vv
  refine ⟨?_, rfl, rfl⟩
  intro h1 h2 h3 h4 h5
  cases sensor
  · rfl
  · simp [cmd_handler, h1, h2, h3, h4, h5]

/-- Witness for the amended C6 at a concrete unrecognized variable. -/
theorem control_rejects_without_mutation_witness :
    ("foo" : String) ≠ "framesize" ∧ ("foo" : String) ≠ "quality" ∧
    ("foo" : String) ≠ "stream_delay" ∧ ("foo" : String) ≠ "vflip" ∧
    ("foo" : String) ≠ "hmirror" ∧
    cmd_handler true true initialCtrlState (QueryParse.parsed "foo" "2") =
      (CtrlResp.serverError500, initialCtrlState) :=
  ⟨by decide, by decide, by decide, by decide, by decide,
   (control_rejects_without_mutation true true initialCtrlState "foo" "2").1
     (by decide) (by decide) (by decide) (by decide) (by decide)⟩

/-- C5 counterexample: the stream error counter is a function-static, not
per-connection state.  A session of 11 consecutive acquisition failures
aborts leaving the static counter at 11; a freshly created next session
therefore starts with counter 11 (not 0) and aborts after a single
acquisition failure, at counter 12. -/
theorem stream_error_counter_carries_over :
    staticErrAfter (stream_handler_run 33 0 stream_error_count_init
        (List.replicate 11 acquireFailIter)).2 = 11 ∧
    staticErrAfter (stream_handler_run 33 0 stream_error_count_init
        (List.replicate 11 acquireFailIter)).2 ≠ 0 ∧
    (stream_handler_run 33 0
        (staticErrAfter (stream_handler_run 33 0 stream_error_count_init
          (List.replicate 11 acquireFailIter)).2)
        [acquireFailIter]).2 = RunEnd.stopped 12 :=
  ⟨by decide, by decide, by decide⟩

/-- C5 amended: the error counter is a function-static shared across all
stream sessions rather than per-connection state.  It is zero at program
start, and it is reset to zero by every successful frame acquisition, so
it equals zero after any successful frame delivery; but a session created
after a previous session aborted at the consecutive-failure threshold
inherits that session's final counter value instead of starting at
zero. -/
theorem stream_error_counter_reset_on_success :
    stream_error_count_init = 0 ∧
    (∀ (delay idx e : Nat) (inp : IterIn) (f : FrameIn) (e2 : Nat),
      inp.acquired = some f →
      (stream_handler_iter delay idx e inp).2 = IterOut.next e2 → e2 = 0) := by
  refine ⟨rfl, ?_⟩
  intro delay idx e inp f e2 hq hnext
  rw [stream_handler_iter_snd] at hnext
  by_cases hc : iterContinues e inp = true
  · rw [if_pos hc] at hnext
    cases hnext
    simp [iterNextErr, hq]
  · rw [if_neg hc] at hnext
    exact absurd hnext (by simp)

/-- Witness for the amended C5 at a concrete delivered frame. -/
theorem stream_error_counter_reset_on_success_witness :
    jpegOkIter.acquired = some jpegOkFrame ∧
    (stream_handler_iter 0 0 7 jpegOkIter).2 = IterOut.next 0 ∧ (0 : Nat) = 0 :=
  ⟨rfl, by decide,
   stream_error_counter_reset_on_success.2 0 0 7 jpegOkIter jpegOkFrame 0 rfl (by decide)⟩

/-- C8: every stream-loop iteration whose sends all succeed ends with the
unconditional pacing wait `vTaskDelay(stream_delay_ms)` — its event trace
ends with the pacing event for the configured delay, for every delay value
including zero. -/
theorem stream_paces_unconditionally :
    ∀ (delay idx e : Nat) (inp : IterIn) (f : FrameIn) (evs : List Ev) (e2 : Nat),
      inp.acquired = some f →
      stream_handler_iter delay idx e inp = (evs, IterOut.next e2) →
      evs.getLast? = some (Ev.pace delay) := by
  intro delay idx e inp f evs e2 hq hiter
  simp only [stream_handler_iter, hq] at hiter
  by_cases hf : f.format = PixFormat.jpeg
  · rw [if_pos hf] at hiter
    exact stream_handler_send_next_last hiter
  · rw [if_neg hf] at hiter
    by_cases henc : inp.encode.ok = false ∨ inp.encode.bufAllocated = false ∨
        inp.encode.bufLen = 0
    · rw [if_pos henc] at hiter
      have hc := congrArg Prod.snd hiter
      exact absurd hc (by simp)
    · rw [if_neg henc] at hiter
      exact stream_handler_send_next_last hiter

/-- Witness for C8 at a concrete successful iteration with delay 0. -/
theorem stream_paces_unconditionally_witness :
    jpegOkIter.acquired = some jpegOkFrame ∧
    stream_handler_iter 0 0 0 jpegOkIter =
      ([Ev.fbAcquire 0, Ev.sendBoundary true, Ev.sendHeader 73 true,
        Ev.sendPayload 1000 true, Ev.fbReturn 0, Ev.pace 0], IterOut.next 0) ∧
    ([Ev.fbAcquire 0, Ev.sendBoundary true, Ev.sendHeader 73 true,
      Ev.sendPayload 1000 true, Ev.fbReturn 0, Ev.pace 0] : List Ev).getLast? =
      some (Ev.pace 0) :=
  ⟨rfl, by decide,
   stream_paces_unconditionally 0 0 0 jpegOkIter jpegOkFrame _ 0 rfl (by decide)⟩

/-- C1: in every bounded stream session and every capture request, each
successfully acquired camera frame is returned to the pool exactly as many
times as it was acquired (once), each `frame2jpg`-allocated buffer is freed
exactly as many times as it was allocated (once), `free` is never applied
to a camera-pool frame payload, acquisitions and allocations carry unique
identities (each at most once), and the capture path never calls `free` at
all. -/
theorem stream_and_capture_release_exactly_once :
    ∀ (delay idx e : Nat) (trace : List IterIn) (env : CaptureEnv) (i : Nat),
      ((stream_handler_run delay idx e trace).1).count (Ev.fbReturn i) =
        ((stream_handler_run delay idx e trace).1).count (Ev.fbAcquire i) ∧
      ((stream_handler_run delay idx e trace).1).count (Ev.fbAcquire i) ≤ 1 ∧
      ((stream_handler_run delay idx e trace).1).count (Ev.bufFree (BufRef.allocated i)) =
        ((stream_handler_run delay idx e trace).1).count (Ev.bufAlloc i) ∧
      ((stream_handler_run delay idx e trace).1).count (Ev.bufAlloc i) ≤ 1 ∧
      ((stream_handler_run delay idx e trace).1).countP isBadFreeEv = 0 ∧
      ((capture_handler env).events).count (Ev.fbReturn i) =
        ((capture_handler env).events).count (Ev.fbAcquire i) ∧
      ((capture_handler env).events).count (Ev.fbAcquire i) ≤ 1 ∧
      ((capture_handler env).events).countP isBufFreeEv = 0 := by
  intro delay idx e trace env i
  obtain ⟨c1, c2, c3⟩ := capture_handler_counts env i
  exact ⟨stream_handler_run_count_ret_eq_acq delay trace idx e i,
    (stream_handler_run_count_acq_bound delay trace idx e i).2,
    stream_handler_run_count_free_eq_alloc delay trace idx e i,
    (stream_handler_run_count_alloc_bound delay trace idx e i).2,
    stream_handler_run_countP_badFree delay trace idx e,
    c1, c2, c3⟩

lemma iterAcqEnc_eq_false {inp : IterIn} (hA : ¬iterAcqEnc inp = true) :
    iterAcqEnc inp = false := by
  cases h : iterAcqEnc inp
  · rfl
  · exact absurd h hA

lemma not_iterContinues_iff_guards {e : Nat} {inp : IterIn}
    (hwt : wellTypedIter inp = true) :
    (¬iterContinues e inp = true) ↔
      (guardSendFail inp = true ∨ guardAcqThreshold e inp = true ∨
        guardEncodeFail inp = true) := by
  rcases hq : inp.acquired with _ | f
  · simp [iterContinues, hq, guardSendFail, iterAcqEnc, guardAcqThreshold, guardEncodeFail]
    omega
  · simp only [wellTypedIter, hq, Bool.and_eq_true, decide_eq_true_eq, and_assoc] at hwt
    obtain ⟨hwb, hwl, hs1, hs2, hu1, hu2⟩ := hwt
    have hpl : payloadLen inp < 4294967296 := by
      by_cases hf : f.format = PixFormat.jpeg <;> simp [payloadLen, hq, hf, hwb, hwl]
    have hl : partHeaderLen (payloadLen inp) f.tsSec f.tsUsec < part_buf_size :=
      partHeaderLen_lt_part_buf hpl hs1 hs2 hu1 hu2
    by_cases hA : iterAcqEnc inp = true
    · simp only [iterContinues, hq, hA, Bool.true_and, guardSendFail, guardAcqThreshold,
        guardEncodeFail, hq, Option.isNone_some, Bool.false_and, Bool.not_true,
        Option.isSome_some, Bool.and_false, Bool.true_and]
      simp [sendChainOk, hl]
      cases inp.sendBoundaryOk <;> cases inp.sendHeaderOk <;> cases inp.sendPayloadOk <;>
        by_cases hlen : payloadLen inp = 0 <;>
          simp [hlen] <;> omega
    · have hA2 := iterAcqEnc_eq_false hA
      simp [iterContinues, hq, hA2, guardSendFail, guardAcqThreshold, guardEncodeFail]

/-- C3: under 32-bit well-typed inputs, a stream-loop iteration breaks out
of the loop exactly under the three guards: (a) a chunk send (boundary,
part header, or payload) fails, (b) the consecutive acquisition-failure
counter exceeds 10, or (c) JPEG conversion of a non-JPEG frame fails;
under no other condition does the loop terminate. -/
theorem stream_loop_exit_guards :
    ∀ (delay idx e : Nat) (inp : IterIn),
      wellTypedIter inp = true →
      ((∃ e2, (stream_handler_iter delay idx e inp).2 = IterOut.stop e2) ↔
        (guardSendFail inp = true ∨ guardAcqThreshold e inp = true ∨
          guardEncodeFail inp = true)) := by
  intro delay idx e inp hwt
  have hsnd := stream_handler_iter_snd delay idx e inp
  constructor
  · rintro ⟨e2, hstop⟩
    rw [hsnd] at hstop
    by_cases hc : iterContinues e inp = true
    · rw [if_pos hc] at hstop
      exact absurd hstop (by simp)
    · exact (not_iterContinues_iff_guards hwt).mp hc
  · intro hg
    have hc := (not_iterContinues_iff_guards hwt).mpr hg
    exact ⟨iterStopErr e inp, by rw [hsnd, if_neg hc]⟩

/-- Witness for C3: the threshold guard fires at a concrete iteration with
counter 10 and a failed acquisition. -/
theorem stream_loop_exit_guards_witness :
    wellTypedIter acquireFailIter = true ∧
    (∃ e2, (stream_handler_iter 33 0 10 acquireFailIter).2 = IterOut.stop e2) :=
  ⟨by decide,
   (stream_loop_exit_guards 33 0 10 acquireFailIter (by decide)).mpr
     (Or.inr (Or.inl (by decide)))⟩

/-- C4: in every bounded stream session the number of multipart boundary
chunks emitted equals the number of frames successfully acquired and
encoded; and the concrete session whose write sink first fails on the 5th
frame ends after exactly 4 fully delivered frames (4 pacing events), with
all 5 acquired frames returned and no buffer ever freed. -/
theorem stream_boundary_count_matches_frames :
    (∀ (delay idx e : Nat) (trace : List IterIn),
      ((stream_handler_run delay idx e trace).1).countP isBoundaryEv = acqEncCount e trace) ∧
    ((stream_handler_run 33 0 0 sinkFailAt5Trace).1).countP isPaceEv = 4 ∧
    (stream_handler_run 33 0 0 sinkFailAt5Trace).2 = RunEnd.stopped 0 ∧
    ((stream_handler_run 33 0 0 sinkFailAt5Trace).1).countP isFbAcquireEv = 5 ∧
    ((stream_handler_run 33 0 0 sinkFailAt5Trace).1).countP isFbReturnEv = 5 ∧
    ((stream_handler_run 33 0 0 sinkFailAt5Trace).1).countP isBufFreeEv = 0 :=
  ⟨fun delay idx e trace => stream_handler_run_countP_boundary delay trace idx e,
   by decide, by decide, by decide, by decide, by decide⟩

lemma captureTryAux_three (acquires : List (Option FrameIn)) :
    captureTryAux acquires 0 3 =
      match acquires.getD 0 none with
      | some f => ([Ev.fbAcquire 0], some (0, f))
      | none =>
        match acquires.getD 1 none with
        | some f => ([Ev.fbGetFail 0, Ev.delayRetry 50, Ev.fbAcquire 1], some (1, f))
        | none =>
          match acquires.getD 2 none with
          | some f => ([Ev.fbGetFail 0, Ev.delayRetry 50, Ev.fbGetFail 1, Ev.delayRetry 50,
              Ev.fbAcquire 2], some (2, f))
          | none => ([Ev.fbGetFail 0, Ev.delayRetry 50, Ev.fbGetFail 1, Ev.delayRetry 50,
              Ev.fbGetFail 2], none) := by
  rcases h0 : acquires.getD 0 none with _ | f0
  · rcases h1 : acquires.getD 1 none with _ | f1
    · rcases h2 : acquires.getD 2 none with _ | f2 <;>
        simp only [captureTryAux, h0, h1, h2] <;> rfl
    · simp only [captureTryAux, h0, h1] <;> rfl
  · simp only [captureTryAux, h0]

/-- C2: every capture/snapshot request performs up to 3 acquisition
attempts, with a 50 ms delay between consecutive attempts (so one fewer
delay than attempts); it responds with a 500 server error and no image
body if and only if all 3 attempts fail; and whenever some attempt yields
a frame — in particular after 2 consecutive failures — the response is the
success (200) path, carrying a JPEG body when the frame is JPEG and the
send succeeds. -/
theorem capture_handler_retry_behavior :
    ∀ env : CaptureEnv,
      ((env.acquires.getD 0 none = none ∧ env.acquires.getD 1 none = none ∧
          env.acquires.getD 2 none = none) ↔
        ((capture_handler env).status = 500 ∧ (capture_handler env).bodyJpeg = false)) ∧
      ((env.acquires.getD 0 none = none ∧ env.acquires.getD 1 none = none ∧
          env.acquires.getD 2 none = none) →
        ((capture_handler env).events).countP isAttemptEv = 3 ∧
        ((capture_handler env).events).count (Ev.delayRetry 50) = 2) ∧
      (∀ (k : Nat) (f : FrameIn), k < 3 →
        (∀ j, j < k → env.acquires.getD j none = none) →
        env.acquires.getD k none = some f →
        ((capture_handler env).events).countP isAttemptEv = k + 1 ∧
        ((capture_handler env).events).count (Ev.delayRetry 50) = k ∧
        (capture_handler env).status = 200) ∧
      (∀ f : FrameIn, env.acquires.getD 0 none = none → env.acquires.getD 1 none = none →
        env.acquires.getD 2 none = some f → f.format = PixFormat.jpeg →
        env.sendOk = true →
        (capture_handler env).status = 200 ∧ (capture_handler env).bodyJpeg = true) := by
  intro env
  rcases h0 : env.acquires.getD 0 none with _ | f0
  · rcases h1 : env.acquires.getD 1 none with _ | f1
    · rcases h2 : env.acquires.getD 2 none with _ | f2
      · -- all three attempts fail
        have hch : capture_handler env =
            { events := [Ev.fbGetFail 0, Ev.delayRetry 50, Ev.fbGetFail 1, Ev.delayRetry 50,
                Ev.fbGetFail 2],
              status := 500, bodyJpeg := false, espOk := false } := by
          simp only [capture_handler, captureTryAux_three, h0, h1, h2]
        refine ⟨by simp [hch], fun _ => by rw [hch]; exact ⟨by decide, by decide⟩,
          ?_, ?_⟩
        · intro k f hk hprior hsome
          interval_cases k <;> simp_all
        · intro f hz0 hz1 hsome
          exact absurd hsome (by simp)
      · -- third attempt succeeds
        have hch : capture_handler env =
            if f2.format = PixFormat.jpeg then
              { events := [Ev.fbGetFail 0, Ev.delayRetry 50, Ev.fbGetFail 1, Ev.delayRetry 50,
                  Ev.fbAcquire 2, Ev.sendPayload f2.len env.sendOk, Ev.fbReturn 2],
                status := 200, bodyJpeg := env.sendOk, espOk := env.sendOk }
            else
              { events := [Ev.fbGetFail 0, Ev.delayRetry 50, Ev.fbGetFail 1, Ev.delayRetry 50,
                  Ev.fbAcquire 2, Ev.sendPayload 0 env.encodeSendOk, Ev.fbReturn 2],
                status := 200, bodyJpeg := env.encodeSendOk, espOk := env.encodeSendOk } := by
          simp only [capture_handler, captureTryAux_three, h0, h1, h2]
          split <;> rfl
        have hst : (capture_handler env).status = 200 := by
          rw [hch]; split <;> rfl
        refine ⟨?_, ?_, ?_, ?_⟩
        · constructor
          · rintro ⟨-, -, hc⟩
            exact absurd hc (by simp)
          · rintro ⟨hs, -⟩
            rw [hst] at hs
            exact absurd hs (by omega)
        · rintro ⟨-, -, hc⟩
          exact absurd hc (by simp)
        · intro k f hk hprior hsome
          interval_cases k
          · rw [h0] at hsome
            exact absurd hsome (by simp)
          · rw [h1] at hsome
            exact absurd hsome (by simp)
          · refine ⟨?_, ?_, hst⟩ <;>
              · rw [hch]; split <;> simp [isAttemptEv]
        · intro f hz0 hz1 hsome hfmt hsend
          cases hsome
          rw [hch, if_pos hfmt]
          exact ⟨rfl, hsend⟩
    · -- second attempt succeeds
      have hch : capture_handler env =
          if f1.format = PixFormat.jpeg then
            { events := [Ev.fbGetFail 0, Ev.delayRetry 50, Ev.fbAcquire 1,
                Ev.sendPayload f1.len env.sendOk, Ev.fbReturn 1],
              status := 200, bodyJpeg := env.sendOk, espOk := env.sendOk }
          else
            { events := [Ev.fbGetFail 0, Ev.delayRetry 50, Ev.fbAcquire 1,
                Ev.sendPayload 0 env.encodeSendOk, Ev.fbReturn 1],
              status := 200, bodyJpeg := env.encodeSendOk, espOk := env.encodeSendOk } := by
        simp only [capture_handler, captureTryAux_three, h0, h1]
        split <;> rfl
      have hst : (capture_handler env).status = 200 := by
        rw [hch]; split <;> rfl
      refine ⟨?_, ?_, ?_, ?_⟩
      · constructor
        · rintro ⟨-, hc, -⟩
          exact absurd hc (by simp)
        · rintro ⟨hs, -⟩
          rw [hst] at hs
          exact absurd hs (by omega)
      · rintro ⟨-, hc, -⟩
        exact absurd hc (by simp)
      · intro k f hk hprior hsome
        interval_cases k
        · rw [h0] at hsome
          exact absurd hsome (by simp)
        · refine ⟨?_, ?_, hst⟩ <;>
            · rw [hch]; split <;> simp [isAttemptEv]
        · have hp := hprior 1 (by omega)
          rw [h1] at hp
          exact absurd hp (by simp)
      · intro f hz0 hz1 hsome
        exact absurd hz1 (by simp)
  · -- first attempt succeeds
    have hch : capture_handler env =
        if f0.format = PixFormat.jpeg then
          { events := [Ev.fbAcquire 0, Ev.sendPayload f0.len env.sendOk, Ev.fbReturn 0],
            status := 200, bodyJpeg := env.sendOk, espOk := env.sendOk }
        else
          { events := [Ev.fbAcquire 0, Ev.sendPayload 0 env.encodeSendOk, Ev.fbReturn 0],
            status := 200, bodyJpeg := env.encodeSendOk, espOk := env.encodeSendOk } := by
      simp only [capture_handler, captureTryAux_three, h0]
      split <;> rfl
    have hst : (capture_handler env).status = 200 := by
      rw [hch]; split <;> rfl
    refine ⟨?_, ?_, ?_, ?_⟩
    · constructor
      · rintro ⟨hc, -, -⟩
        exact absurd hc (by simp)
      · rintro ⟨hs, -⟩
        rw [hst] at hs
        exact absurd hs (by omega)
    · rintro ⟨hc, -, -⟩
      exact absurd hc (by simp)
    · intro k f hk hprior hsome
      interval_cases k
      · refine ⟨?_, ?_, hst⟩ <;>
          · rw [hch]; split <;> simp [isAttemptEv]
      · have hp := hprior 0 (by omega)
        rw [h0] at hp
        exact absurd hp (by simp)
      · have hp := hprior 0 (by omega)
        rw [h0] at hp
        exact absurd hp (by simp)
    · intro f hz0 hz1 hsome
      exact absurd hz0 (by simp)

/-- A capture environment with two acquisition failures followed by a
successful JPEG frame, all sends succeeding. -/
def retryEnv : CaptureEnv :=
  { acquires := [none, none, some jpegOkFrame], sendOk := true, encodeSendOk := true }

/-- Witness for C2: two simulated acquisition failures followed by a
successful JPEG frame yield a 200 response with a JPEG body. -/
theorem capture_handler_retry_behavior_witness :
    retryEnv.acquires.getD 0 none = none ∧
    retryEnv.acquires.getD 1 none = none ∧
    retryEnv.acquires.getD 2 none = some jpegOkFrame ∧
    jpegOkFrame.format = PixFormat.jpeg ∧
    retryEnv.sendOk = true ∧
    (capture_handler retryEnv).status = 200 ∧
    (capture_handler retryEnv).bodyJpeg = true :=
  ⟨by decide, by decide, by decide, by decide, by decide,
   ((capture_handler_retry_behavior retryEnv).2.2.2 jpegOkFrame
      (by decide) (by decide) (by decide) (by decide) (by decide)).1,
   ((capture_handler_retry_behavior retryEnv).2.2.2 jpegOkFrame
      (by decide) (by decide) (by decide) (by decide) (by decide)).2⟩

lemma framesize_from_value_lt_invalid (v : String) :
    framesize_from_value v < FRAMESIZE_INVALID := by
  simp only [framesize_from_value, FRAMESIZE_SVGA, FRAMESIZE_FHD, FRAMESIZE_INVALID]
  split_ifs with h1 h2 h3
  · omega
  · omega
  · obtain ⟨ha, hb⟩ := h3
    omega
  · omega

lemma cmd_handler_framesize (psram : Bool) (st : CtrlState) (vv : String) :
    cmd_handler psram true st (QueryParse.parsed "framesize" vv) =
      (CtrlResp.okEmpty, { st with cam := { st.cam with framesize :=
        (if psram = false ∧ FRAMESIZE_SVGA < framesize_from_value vv then FRAMESIZE_SVGA
         else framesize_from_value vv) } }) := rfl

lemma cmd_handler_quality (psram : Bool) (st : CtrlState) (vv : String) :
    cmd_handler psram true st (QueryParse.parsed "quality" vv) =
      (CtrlResp.okEmpty, { st with cam := { st.cam with quality :=
        (if 63 < (if atoi vv < 5 then 5 else atoi vv) then 63
         else (if atoi vv < 5 then 5 else atoi vv)).toNat } }) := rfl

lemma cmd_handler_stream_delay (psram : Bool) (st : CtrlState) (vv : String) :
    cmd_handler psram true st (QueryParse.parsed "stream_delay" vv) =
      (CtrlResp.okEmpty, { st with streamDelayMs :=
        (if 500 < (if atoi vv < 33 then 33 else atoi vv) then 500
         else (if atoi vv < 33 then 33 else atoi vv)).toNat }) := rfl

lemma cmd_handler_vflip (psram : Bool) (st : CtrlState) (vv : String) :
    cmd_handler psram true st (QueryParse.parsed "vflip" vv) =
      (CtrlResp.okEmpty, { st with cam := { st.cam with vflip :=
        (if 1 < (if atoi vv < 0 then 0 else atoi vv) then 1
         else (if atoi vv < 0 then 0 else atoi vv)).toNat } }) := rfl

lemma cmd_handler_hmirror (psram : Bool) (st : CtrlState) (vv : String) :
    cmd_handler psram true st (QueryParse.parsed "hmirror" vv) =
      (CtrlResp.okEmpty, { st with cam := { st.cam with hmirror :=
        (if 1 < (if atoi vv < 0 then 0 else atoi vv) then 1
         else (if atoi vv < 0 then 0 else atoi vv)).toNat } }) := rfl

/-- C7: every `/control` mutation leaves the Capture Configuration inside
its declared valid ranges; `quality` with value 999 is clamped to 63 and
succeeds; with no PSRAM a requested framesize above SVGA is silently
clamped to SVGA and never rejected; `stream_delay` is clamped into
`[33, 500]` and the flip/mirror flags into `{0, 1}`, always succeeding. -/
theorem control_clamps_into_range :
    ∀ (psram sensor : Bool) (st : CtrlState) (q : QueryParse),
      (wellFormedCtrl psram st → wellFormedCtrl psram (cmd_handler psram sensor st q).2) ∧
      (cmd_handler psram true st (QueryParse.parsed "quality" "999") =
        (CtrlResp.okEmpty, { st with cam := { st.cam with quality := 63 } })) ∧
      (∀ vv : String, FRAMESIZE_SVGA < framesize_from_value vv →
        cmd_handler false true st (QueryParse.parsed "framesize" vv) =
          (CtrlResp.okEmpty, { st with cam := { st.cam with
            framesize := FRAMESIZE_SVGA } })) ∧
      (∀ vv : String, ∃ d : Nat,
        cmd_handler psram true st (QueryParse.parsed "stream_delay" vv) =
          (CtrlResp.okEmpty, { st with streamDelayMs := d }) ∧ 33 ≤ d ∧ d ≤ 500) ∧
      (∀ vv : String, ∃ b : Nat,
        cmd_handler psram true st (QueryParse.parsed "vflip" vv) =
          (CtrlResp.okEmpty, { st with cam := { st.cam with vflip := b } }) ∧ b ≤ 1) ∧
      (∀ vv : String, ∃ b : Nat,
        cmd_handler psram true st (QueryParse.parsed "hmirror" vv) =
          (CtrlResp.okEmpty, { st with cam := { st.cam with hmirror := b } }) ∧ b ≤ 1) := by
  intro psram sensor st q
  refine ⟨?_, ?_, ?_, ?_, ?_, ?_⟩
  · intro hwf
    rcases q with _ | _ | ⟨vn, vv⟩
    · exact hwf
    · exact hwf
    · cases sensor
      · exact hwf
      · obtain ⟨w1, w2, w3, w4, w5, w6, w7, w8⟩ := hwf
        by_cases h1 : vn = "framesize"
        · subst h1
          rw [cmd_handler_framesize]
          refine ⟨?_, ?_, w3, w4, w5, w6, w7, w8⟩
          · dsimp only
            split_ifs with hcond
            · decide
            · exact framesize_from_value_lt_invalid vv
          · intro hp
            dsimp only
            split_ifs with hcond
            · exact Nat.le_refl _
            · push_neg at hcond
              exact hcond hp
        · by_cases h2 : vn = "quality"
          · subst h2
            rw [cmd_handler_quality]
            refine ⟨w1, w2, ?_, ?_, w5, w6, w7, w8⟩ <;>
              · dsimp only
                split_ifs <;> omega
          · by_cases h3 : vn = "stream_delay"
            · subst h3
              rw [cmd_handler_stream_delay]
              refine ⟨w1, w2, w3, w4, w5, w6, ?_, ?_⟩ <;>
                · dsimp only
                  split_ifs <;> omega
            · by_cases h4 : vn = "vflip"
              · subst h4
                rw [cmd_handler_vflip]
                refine ⟨w1, w2, w3, w4, ?_, w6, w7, w8⟩
                dsimp only
                split_ifs <;> omega
              · by_cases h5 : vn = "hmirror"
                · subst h5
                  rw [cmd_handler_hmirror]
                  refine ⟨w1, w2, w3, w4, w5, ?_, w7, w8⟩
                  dsimp only
                  split_ifs <;> omega
                · have hres : cmd_handler psram true st (QueryParse.parsed vn vv) =
                      (CtrlResp.serverError500, st) := by
                    simp [cmd_handler, h1, h2, h3, h4, h5]
                  rw [hres]
                  exact ⟨w1, w2, w3, w4, w5, w6, w7, w8⟩
  · have ha : atoi "999" = 999 := by decide
    rw [cmd_handler_quality, ha]
    norm_num
    rfl
  · intro vv hv
    rw [cmd_handler_framesize, if_pos ⟨rfl, hv⟩]
  · intro vv
    refine ⟨_, cmd_handler_stream_delay psram st vv, ?_, ?_⟩ <;> split_ifs <;> omega
  · intro vv
    refine ⟨_, cmd_handler_vflip psram st vv, ?_⟩
    split_ifs <;> omega
  · intro vv
    refine ⟨_, cmd_handler_hmirror psram st vv, ?_⟩
    split_ifs <;> omega

/-- Witness for C7 at the boot configuration: it is well formed and stays
well formed after a clamped quality request, and a 1080p framesize request
without PSRAM is clamped to SVGA. -/
theorem control_clamps_into_range_witness :
    wellFormedCtrl true initialCtrlState ∧
    wellFormedCtrl true (cmd_handler true true initialCtrlState
      (QueryParse.parsed "quality" "0")).2 ∧
    FRAMESIZE_SVGA < framesize_from_value "fhd" ∧
    cmd_handler false true initialCtrlState (QueryParse.parsed "framesize" "fhd") =
      (CtrlResp.okEmpty, { initialCtrlState with cam := { initialCtrlState.cam with
        framesize := FRAMESIZE_SVGA } }) :=
  ⟨by decide,
   (control_clamps_into_range true true initialCtrlState
      (QueryParse.parsed "quality" "0")).1 (by decide),
   by decide,
   (control_clamps_into_range false true initialCtrlState QueryParse.empty).2.2.1 "fhd"
     (by decide)⟩

end BrackenIPCam
